import Mathlib

/-!
Shallow embedding of `src/script.js` ("Exterminator", a schema-based data
validator).  JavaScript values that can flow through the validator are
modelled by `JSValue` (numbers are modelled as integers; every number the
library's own examples use is integral).  A JavaScript exception
(`TypeError` from calling a string method on a non-string, or reading a
property of `null`/`undefined`) is modelled by the `Except.error`
constructor; normal returns are `Except.ok`.

The JavaScript string primitives the validator uses (`trim`, `split`,
`toLowerCase`, `join`, numeric coercion, the default sort comparison) are
given direct structural implementations over the character list of a
`String`, so that every definition evaluates by kernel reduction.
-/

/-! ### JavaScript string primitives -/

def trimLeftChars : List Char → List Char
  | [] => []
  | c :: cs => if c.isWhitespace then trimLeftChars cs else c :: cs

/-- JavaScript `s.trim()`: remove leading and trailing whitespace. -/
def jsStrTrim (s : String) : String :=
  ⟨(trimLeftChars (trimLeftChars s.data.reverse).reverse)⟩

def splitCharsOn (sep : Char) : List Char → List (List Char)
  | [] => [[]]
  | c :: cs =>
    match splitCharsOn sep cs with
    | [] => [[c]]
    | g :: gs => if c = sep then [] :: g :: gs else (c :: g) :: gs

/-- JavaScript `s.split(sep)` for a one-character separator (the library only splits
on `"@"`). -/
def jsSplit (s : String) (sep : Char) : List String :=
  (splitCharsOn sep s.data).map (fun cs => ⟨cs⟩)

/-- JavaScript `arr.join(", ")`. -/
def joinComma : List String → String
  | [] => ""
  | [s] => s
  | s :: rest => s ++ ", " ++ joinComma rest

/-- JavaScript `s.toLowerCase()` (character-wise; the library only meets ASCII). -/
def jsToLower (s : String) : String := ⟨s.data.map Char.toLower⟩

/-- JavaScript `s.toUpperCase()`. -/
def jsToUpper (s : String) : String := ⟨s.data.map Char.toUpper⟩

def natDigitChar (n : Nat) : Char := Char.ofNat (48 + n)

/-- Decimal digits of `n`, structural in a fuel argument so that it
evaluates by kernel reduction. -/
def natToDigitsAux : Nat → Nat → List Char
  | 0, _ => []
  | fuel + 1, n =>
    if n < 10 then [natDigitChar n]
    else natToDigitsAux fuel (n / 10) ++ [natDigitChar (n % 10)]

def natToStr (n : Nat) : String := ⟨natToDigitsAux (n + 1) n⟩

/-- JavaScript `String(n)` for an integral number. -/
def intToStr : Int → String
  | .ofNat n => natToStr n
  | .negSucc m => "-" ++ natToStr (m + 1)

def parseDigitsAux : List Char → Nat → Option Nat
  | [], acc => some acc
  | c :: cs, acc =>
    if c.isDigit then parseDigitsAux cs (acc * 10 + (c.toNat - 48)) else none

/-- Decimal numeral (optionally signed) to integer; `none` models `NaN`.
Only integral decimal numerals of JavaScript's string-to-number coercion
are modelled — the library's own data never exercises fractional or exotic
numerals. -/
def parseIntChars : List Char → Option Int
  | [] => none
  | '-' :: cs => (parseDigitsAux cs 0).map (fun n => -(n : Int))
  | '+' :: cs => (parseDigitsAux cs 0).map (fun n => (n : Int))
  | cs => (parseDigitsAux cs 0).map (fun n => (n : Int))

/-- Code-unit comparison `a < b` on strings, as JavaScript's default sort
and relational operators compare strings. -/
def charListLtB : List Char → List Char → Bool
  | [], [] => false
  | [], _ :: _ => true
  | _ :: _, [] => false
  | a :: as, b :: bs =>
    if a.toNat < b.toNat then true
    else if b.toNat < a.toNat then false
    else charListLtB as bs

def jsStrLtB (a b : String) : Bool := charListLtB a.data b.data

def jsStrLeB (a b : String) : Bool := !(charListLtB b.data a.data)

/-! ### JavaScript values -/

inductive JSValue where
  | vNull
  | vUndefined
  | vStr (s : String)
  | vNum (n : Int)
deriving DecidableEq

/-- A JavaScript object is modelled as an association list from property
names to values (schema and data objects in this library are plain string
keyed records). -/
abbrev JSObj := List (String × JSValue)

/-- Property read `obj[k]`: a missing property reads as `undefined`. -/
def getProp (obj : JSObj) (k : String) : JSValue :=
  (List.lookup k obj).getD JSValue.vUndefined

/-- JavaScript `String(value)` coercion, as performed implicitly by `RegExp.test`. -/
def jsToString : JSValue → String
  | .vNull => "null"
  | .vUndefined => "undefined"
  | .vStr s => s
  | .vNum n => intToStr n

/-- JavaScript `Number(value)` coercion as used by the abstract relational comparison;
`none` models `NaN`. -/
def jsToNumber : JSValue → Option Int
  | .vNull => some 0
  | .vUndefined => none
  | .vNum n => some n
  | .vStr s =>
    if (jsStrTrim s) = "" then some 0 else parseIntChars (jsStrTrim s).data

/-- JavaScript `a < b` (abstract relational comparison: string/string
compares code-unit-wise, otherwise both sides coerce to numbers and any
`NaN` makes the comparison false). -/
def jsLt (a b : JSValue) : Bool :=
  match a, b with
  | .vStr s, .vStr t => jsStrLtB s t
  | _, _ =>
    match jsToNumber a, jsToNumber b with
    | some x, some y => decide (x < y)
    | _, _ => false

/-- JavaScript `a <= b`. -/
def jsLe (a b : JSValue) : Bool :=
  match a, b with
  | .vStr s, .vStr t => jsStrLeB s t
  | _, _ =>
    match jsToNumber a, jsToNumber b with
    | some x, some y => decide (x ≤ y)
    | _, _ => false

/-- JavaScript `a > b`. -/
def jsGt (a b : JSValue) : Bool := jsLt b a

/-- JavaScript `a >= b`. -/
def jsGe (a b : JSValue) : Bool := jsLe b a

/-! ### Rules -/

/-- Outcome of one rule's `validate` callback: JavaScript lets it return
`true` (pass), `false` (fail), a string (fail with a specific message, used
by the email rule), or throw. -/
inductive RuleOutcome where
  | pass
  | fail
  | failMsg (s : String)
  | thrown (s : String)
deriving DecidableEq

/-- Returns `true` exactly when the rule's callback threw. -/
def RuleOutcome.throws : RuleOutcome → Bool
  | .thrown _ => true
  | _ => false

/-- A `message` option as the builder methods accept it: either a plain
string or a function of the offending value. -/
inductive JSMessage where
  | str (s : String)
  | fn (f : JSValue → String)

/-- Resolution `typeof message === "function" ? message(value) : message`. -/
def resolveError (m : JSMessage) (v : JSValue) : String :=
  match m with
  | .str s => s
  | .fn f => f v

/-- One registered rule: the predicate plus its error.  The `error` slot is
resolved as in `validate`: it receives the value and, when the predicate
returned a string, that string. -/
structure Rule where
  validate : JSValue → JSObj → RuleOutcome
  error : JSValue → Option String → String

/-- Wraps a `message` option into the standard `error` slot (the email rule
installs a custom one instead). -/
def mkError (m : JSMessage) : JSValue → Option String → String :=
  fun v _ => resolveError m v

/-- The loop `for (let preprocessor of this.preprocessors) value =
preprocessor(value)`, threading a possible throw. -/
def runPreprocessors : List (JSValue → Except String JSValue) → JSValue →
    Except String JSValue
  | [], v => .ok v
  | p :: ps, v =>
    match p v with
    | .ok v2 => runPreprocessors ps v2
    | .error e => .error e

/-- The rule sweep `for (let validator of this.validators) ...`: every rule
runs in order; each failing rule's resolved message is pushed; a throw
aborts the whole call. -/
def runRules : List Rule → JSValue → JSObj → Except String (List String)
  | [], _, _ => .ok []
  | r :: rs, v, obj =>
    match r.validate v obj with
    | .pass => runRules rs v obj
    | .fail => (runRules rs v obj).map (fun es => r.error v none :: es)
    | .failMsg s => (runRules rs v obj).map (fun es => r.error v (some s) :: es)
    | .thrown e => .error e

/-! ### StringValidator -/

/-- State of a `StringValidator` instance.  The JavaScript constructor also
stores an unused `options` bag, which no method reads; it is omitted.
`errors` is the mutable scratch slot that `validate` resets and fills. -/
structure StringValidator where
  validators : List Rule
  errors : List String
  preprocessors : List (JSValue → Except String JSValue)
  isOptional : Bool
  isNullable : Bool
  invalidSetup : Option String

/-- Factory `string()` / `new StringValidator()`. -/
def string : StringValidator :=
  { validators := [], errors := [], preprocessors := [],
    isOptional := false, isNullable := false, invalidSetup := none }

/-- The callback of `required`: `value != null && value.trim() !== ""`.
Loose `!= null` is false for both `null` and `undefined`; `.trim()` on a
number throws. -/
def stringRequiredCheck (value : JSValue) : RuleOutcome :=
  match value with
  | .vNull => .fail
  | .vUndefined => .fail
  | .vStr s => if jsStrTrim s ≠ "" then .pass else .fail
  | .vNum _ => .thrown "TypeError: value.trim is not a function"

def StringValidator.required (sv : StringValidator) (message : JSMessage) :
    StringValidator :=
  { sv with validators := sv.validators ++
      [{ validate := fun value _ => stringRequiredCheck value,
         error := mkError message }] }

def stringRequiredDefaultMsg : JSMessage := .str "Value is required"

/-- The callback of `alphaNumeric`: `/^[a-zA-Z0-9]+$/i.test(value)`;
`test` coerces its argument to a string and never throws. -/
def alphaNumericCheck (value : JSValue) : RuleOutcome :=
  let s := jsToString value
  if s.data ≠ [] ∧ s.data.all (fun c => c.isAlpha || c.isDigit) then .pass
  else .fail

def StringValidator.alphaNumeric (sv : StringValidator) (message : JSMessage) :
    StringValidator :=
  { sv with validators := sv.validators ++
      [{ validate := fun value _ => alphaNumericCheck value,
         error := mkError message }] }

/-- The callback of the text `min`: `value.length >= length`.  On a string
this is the length comparison; on a number, `value.length` is `undefined`
and the comparison is false; on `null`/`undefined` the property read
throws. -/
def stringMinCheck (len : Nat) (value : JSValue) : RuleOutcome :=
  match value with
  | .vStr s => if s.data.length ≥ len then .pass else .fail
  | .vNum _ => .fail
  | .vNull => .thrown "TypeError: Cannot read properties of null"
  | .vUndefined => .thrown "TypeError: Cannot read properties of undefined"

def StringValidator.min (sv : StringValidator) (len : Nat)
    (message : JSMessage) : StringValidator :=
  { sv with validators := sv.validators ++
      [{ validate := fun value _ => stringMinCheck len value,
         error := mkError message }] }

def stringMinDefaultMsg (len : Nat) : JSMessage :=
  .fn (fun v => "Value must be at least " ++ natToStr len ++
    " characters long, but got " ++ jsToString v)

/-- The callback of the text `max`: `value.length <= length`. -/
def stringMaxCheck (len : Nat) (value : JSValue) : RuleOutcome :=
  match value with
  | .vStr s => if s.data.length ≤ len then .pass else .fail
  | .vNum _ => .fail
  | .vNull => .thrown "TypeError: Cannot read properties of null"
  | .vUndefined => .thrown "TypeError: Cannot read properties of undefined"

def StringValidator.max (sv : StringValidator) (len : Nat)
    (message : JSMessage) : StringValidator :=
  { sv with validators := sv.validators ++
      [{ validate := fun value _ => stringMaxCheck len value,
         error := mkError message }] }

def stringMaxDefaultMsg (len : Nat) : JSMessage :=
  .fn (fun v => "Value must be at most " ++ natToStr len ++
    " characters long, but got " ++ jsToString v)

/-- Check `value === value.toLowerCase()`: `.toLowerCase()` throws on
non-strings. -/
def lowercaseCheck (value : JSValue) : RuleOutcome :=
  match value with
  | .vStr s => if s = jsToLower s then .pass else .fail
  | _ => .thrown "TypeError: value.toLowerCase is not a function"

def StringValidator.lowercase (sv : StringValidator) (message : JSMessage) :
    StringValidator :=
  { sv with validators := sv.validators ++
      [{ validate := fun value _ => lowercaseCheck value,
         error := mkError message }] }

/-- Check `value === value.toUpperCase()`. -/
def uppercaseCheck (value : JSValue) : RuleOutcome :=
  match value with
  | .vStr s => if s = jsToUpper s then .pass else .fail
  | _ => .thrown "TypeError: value.toUpperCase is not a function"

def StringValidator.uppercase (sv : StringValidator) (message : JSMessage) :
    StringValidator :=
  { sv with validators := sv.validators ++
      [{ validate := fun value _ => uppercaseCheck value,
         error := mkError message }] }

/-- Character class `[a-zA-Z0-9._-]` of the email regex's local part. -/
def emailLocalChar (c : Char) : Bool :=
  c.isAlpha || c.isDigit || c = '.' || c = '_' || c = '-'

/-- Character class `[a-zA-Z0-9.-]` of the email regex's domain part. -/
def emailDomainChar (c : Char) : Bool :=
  c.isAlpha || c.isDigit || c = '.' || c = '-'

/-- Match of `[a-zA-Z0-9.-]+\.[a-zA-Z]{2,4}$` against the part after `@`:
some split into a non-empty domain-character run, a dot, and a 2-4 letter
tail reaching the end. -/
def emailDomainPartTest (cs : List Char) : Bool :=
  [2, 3, 4].any (fun k =>
    decide (cs.length ≥ k + 2) &&
    (cs.drop (cs.length - k)).all Char.isAlpha &&
    (cs.getD (cs.length - k - 1) ' ' == '.') &&
    (cs.take (cs.length - k - 1)).all emailDomainChar)

/-- Match of the email regex against the whole string: both
character classes exclude `@`, so a match has exactly one `@`. -/
def emailRegexTest (s : String) : Bool :=
  match splitCharsOn '@' s.data with
  | [loc, dom] => (loc != []) && loc.all emailLocalChar && emailDomainPartTest dom
  | _ => false

/-- The callback of the email rule: format regex first (returning the
configured message as a string on mismatch), then the allow list, then the
deny list; `value.split("@")` is only reached on values the regex
accepted, which are strings containing `@`. -/
def emailRuleCheck (message : JSMessage) (domains excludeDomains : List String)
    (value : JSValue) : RuleOutcome :=
  if ¬ emailRegexTest (jsToString value) then .failMsg (resolveError message value)
  else
    match value with
    | .vStr s =>
      let domain := (jsSplit s '@').getD 1 ""
      if domains ≠ [] ∧ ¬ domains.contains domain then
        .failMsg ("Email domain must be one of " ++ joinComma domains)
      else if excludeDomains ≠ [] ∧ excludeDomains.contains domain then
        .failMsg ("Email domain must not be one of " ++ joinComma excludeDomains)
      else .pass
    | _ => .thrown "TypeError: value.split is not a function"

/-- The setup message written to `invalidSetup` when a domain appears in
both the allow and the deny list. -/
def emailConflictMsg (domains excludeDomains : List String) : String :=
  "Domains " ++
    joinComma (domains.filter (fun d => excludeDomains.contains d)) ++
    " cannot be both allowed and excluded."

def StringValidator.email (sv : StringValidator) (message : JSMessage)
    (domains excludeDomains : List String) : StringValidator :=
  let commonDomains := domains.filter (fun d => excludeDomains.contains d)
  if commonDomains ≠ [] then
    { sv with invalidSetup := some (emailConflictMsg domains excludeDomains) }
  else
    { sv with validators := sv.validators ++
        [{ validate := fun value _ => emailRuleCheck message domains excludeDomains value,
           error := fun v res =>
             match res with
             | some s => s
             | none => resolveError message v }] }

/-- The callback of `oneOf`: `allowedValues.includes(value)` (strict
equality membership, so a non-string value is simply not found). -/
def oneOfCheck (allowedValues : List String) (value : JSValue) : RuleOutcome :=
  match value with
  | .vStr s => if allowedValues.contains s then .pass else .fail
  | _ => .fail

def StringValidator.oneOf (sv : StringValidator) (allowedValues : List String)
    (message : JSMessage) : StringValidator :=
  if allowedValues = [] then
    { sv with invalidSetup := some "You must provide at least one allowed value." }
  else
    { sv with validators := sv.validators ++
        [{ validate := fun value _ => oneOfCheck allowedValues value,
           error := mkError message }] }

/-- The preprocessor pushed by `trim()`: `(value) => value.trim()`, which
throws on every non-string value. -/
def jsTrimPre : JSValue → Except String JSValue
  | .vStr s => .ok (.vStr (jsStrTrim s))
  | .vNum _ => .error "TypeError: value.trim is not a function"
  | .vNull => .error "TypeError: Cannot read properties of null"
  | .vUndefined => .error "TypeError: Cannot read properties of undefined"

def StringValidator.trim (sv : StringValidator) : StringValidator :=
  { sv with preprocessors := sv.preprocessors ++ [jsTrimPre] }

def StringValidator.optional (sv : StringValidator) : StringValidator :=
  { sv with isOptional := true }

def StringValidator.nullable (sv : StringValidator) : StringValidator :=
  { sv with isNullable := true }

def StringValidator.equals (sv : StringValidator) (field : String)
    (message : JSMessage) : StringValidator :=
  { sv with validators := sv.validators ++
      [{ validate := fun value obj =>
           if value = getProp obj field then .pass else .fail,
         error := mkError message }] }

def stringEqualsDefaultMsg (field : String) : JSMessage :=
  .str ("Value must be equal to " ++ field)

/-- Method `StringValidator.prototype.validate(value, obj)`: reset `errors`, then
setup check, optional empty-string short-circuit, strict-equality null
check, preprocessors, rule sweep; the returned validator carries the new
`errors` slot and the `Bool` is the JavaScript return value. -/
def StringValidator.validate (sv0 : StringValidator) (value : JSValue)
    (obj : JSObj) : Except String (StringValidator × Bool) :=
  let sv := { sv0 with errors := ([] : List String) }
  match sv.invalidSetup with
  | some msg => .ok ({ sv with errors := [msg] }, false)
  | none =>
    if sv.isOptional ∧ value = JSValue.vStr "" then .ok (sv, true)
    else if value = JSValue.vNull then
      (if sv.isNullable then .ok (sv, true)
       else .ok ({ sv with errors := ["Value cannot be null"] }, false))
    else
      match runPreprocessors sv.preprocessors value with
      | .error e => .error e
      | .ok v2 =>
        match runRules sv.validators v2 obj with
        | .error e => .error e
        | .ok es => .ok ({ sv with errors := es }, es.isEmpty)

def StringValidator.getErrors (sv : StringValidator) : List String := sv.errors

/-! ### NumberValidator -/

/-- State of a `NumberValidator` instance.  Its JavaScript constructor does
not initialize `errors` (the slot first exists when `validate` assigns it);
since `validate` overwrites it before any read, the model initializes it to
`[]`. -/
structure NumberValidator where
  preprocessors : List (JSValue → Except String JSValue)
  isOptional : Bool
  isNullable : Bool
  validators : List Rule
  errors : List String
  invalidSetup : Option String

/-- Factory `number()` / `new NumberValidator()`. -/
def number : NumberValidator :=
  { preprocessors := [], isOptional := false, isNullable := false,
    validators := [], errors := [], invalidSetup := none }

/-- The callback of the numeric `required`:
`value !== null && value !== undefined` (strict equalities; no other value,
the number `0` and the empty string included, fails it). -/
def numberRequiredCheck (value : JSValue) : RuleOutcome :=
  match value with
  | .vNull => .fail
  | .vUndefined => .fail
  | _ => .pass

def NumberValidator.required (nv : NumberValidator) (message : JSMessage) :
    NumberValidator :=
  { nv with validators := nv.validators ++
      [{ validate := fun value _ => numberRequiredCheck value,
         error := mkError message }] }

def numberRequiredDefaultMsg : JSMessage := .str "This field is required."

def NumberValidator.min (nv : NumberValidator) (minValue : Int)
    (message : JSMessage) : NumberValidator :=
  { nv with validators := nv.validators ++
      [{ validate := fun value _ =>
           if jsGe value (.vNum minValue) then .pass else .fail,
         error := mkError message }] }

def NumberValidator.max (nv : NumberValidator) (maxValue : Int)
    (message : JSMessage) : NumberValidator :=
  { nv with validators := nv.validators ++
      [{ validate := fun value _ =>
           if jsLe value (.vNum maxValue) then .pass else .fail,
         error := mkError message }] }

/-- Check `Number.isInteger(value)`: true only for numbers (every number of this
model is integral). -/
def NumberValidator.integer (nv : NumberValidator) (message : JSMessage) :
    NumberValidator :=
  { nv with validators := nv.validators ++
      [{ validate := fun value _ =>
           match value with
           | .vNum _ => .pass
           | _ => .fail,
         error := mkError message }] }

def NumberValidator.positive (nv : NumberValidator) (message : JSMessage) :
    NumberValidator :=
  { nv with validators := nv.validators ++
      [{ validate := fun value _ =>
           if jsGt value (.vNum 0) then .pass else .fail,
         error := mkError message }] }

def NumberValidator.negative (nv : NumberValidator) (message : JSMessage) :
    NumberValidator :=
  { nv with validators := nv.validators ++
      [{ validate := fun value _ =>
           if jsLt value (.vNum 0) then .pass else .fail,
         error := mkError message }] }

/-- Cross-field `greater(field)`: `value > obj[field]`, the referenced
value read from the whole object handed to `validate`. -/
def NumberValidator.greater (nv : NumberValidator) (field : String)
    (message : JSMessage) : NumberValidator :=
  { nv with validators := nv.validators ++
      [{ validate := fun value obj =>
           if jsGt value (getProp obj field) then .pass else .fail,
         error := mkError message }] }

def NumberValidator.less (nv : NumberValidator) (field : String)
    (message : JSMessage) : NumberValidator :=
  { nv with validators := nv.validators ++
      [{ validate := fun value obj =>
           if jsLt value (getProp obj field) then .pass else .fail,
         error := mkError message }] }

def NumberValidator.greaterEqual (nv : NumberValidator) (field : String)
    (message : JSMessage) : NumberValidator :=
  { nv with validators := nv.validators ++
      [{ validate := fun value obj =>
           if jsGe value (getProp obj field) then .pass else .fail,
         error := mkError message }] }

def NumberValidator.lessEqual (nv : NumberValidator) (field : String)
    (message : JSMessage) : NumberValidator :=
  { nv with validators := nv.validators ++
      [{ validate := fun value obj =>
           if jsLe value (getProp obj field) then .pass else .fail,
         error := mkError message }] }

def NumberValidator.optional (nv : NumberValidator) : NumberValidator :=
  { nv with isOptional := true }

def NumberValidator.nullable (nv : NumberValidator) : NumberValidator :=
  { nv with isNullable := true }

/-- Method `NumberValidator.prototype.validate(value, obj)`: the same protocol as
the text variant (its `if (this.preprocessors)` / `if (this.validators)`
guards are always truthy, the constructor having set both to arrays). -/
def NumberValidator.validate (nv0 : NumberValidator) (value : JSValue)
    (obj : JSObj) : Except String (NumberValidator × Bool) :=
  let nv := { nv0 with errors := ([] : List String) }
  match nv.invalidSetup with
  | some msg => .ok ({ nv with errors := [msg] }, false)
  | none =>
    if nv.isOptional ∧ value = JSValue.vStr "" then .ok (nv, true)
    else if value = JSValue.vNull then
      (if nv.isNullable then .ok (nv, true)
       else .ok ({ nv with errors := ["Value cannot be null"] }, false))
    else
      match runPreprocessors nv.preprocessors value with
      | .error e => .error e
      | .ok v2 =>
        match runRules nv.validators v2 obj with
        | .error e => .error e
        | .ok es => .ok ({ nv with errors := es }, es.isEmpty)

def NumberValidator.getErrors (nv : NumberValidator) : List String := nv.errors

/-! ### Exterminator (the schema validator) -/

/-- A schema entry is one of the two field-validator variants. -/
inductive FieldV where
  | str (sv : StringValidator)
  | num (nv : NumberValidator)

def FieldV.validate : FieldV → JSValue → JSObj → Except String (FieldV × Bool)
  | .str sv, v, obj => (sv.validate v obj).map (fun p => (.str p.1, p.2))
  | .num nv, v, obj => (nv.validate v obj).map (fun p => (.num p.1, p.2))

def FieldV.getErrors : FieldV → List String
  | .str sv => sv.getErrors
  | .num nv => nv.getErrors

/-- A schema: field names mapped to field validators, in declaration
order. -/
abbrev Schema := List (String × FieldV)

/-- The result of `Exterminator.prototype.validate`: the literal `true`, or
the object `{ message, errors }` whose `errors` maps field names (or the
special key `"keys"`) to message lists. -/
inductive VResult where
  | success
  | failure (message : String) (errors : List (String × List String))

/-- Method `Exterminator.prototype.arraysEqual(a, b)`:
`a.length === b.length && a.every((val, i) => val === b[i])`. -/
def Exterminator.arraysEqual (a b : List String) : Bool :=
  a.length == b.length && (List.zip a b).all (fun p => p.1 == p.2)

/-- The per-key loop of `Exterminator.prototype.validate`: each schema
field's validator runs on `(obj[key], obj)` in schema order (every schema
entry is an own property in this model, so the `hasOwnProperty` guard is
always taken); failing fields contribute `(key, validator.getErrors())`.
The updated validators (their `errors` slots were overwritten) are
returned alongside. -/
def validateFields : Schema → JSObj → Except String (Schema × List (String × List String))
  | [], _ => .ok ([], [])
  | (k, fv) :: rest, obj =>
    match FieldV.validate fv (getProp obj k) obj with
    | .error e => .error e
    | .ok (fv2, ok) =>
      match validateFields rest obj with
      | .error e => .error e
      | .ok (rest2, errs) =>
        .ok ((k, fv2) :: rest2,
          if ok then errs else (k, fv2.getErrors) :: errs)

/-- Method `Exterminator.prototype.validate(obj)`.  The constructor only stores
the schema, so the schema is passed directly; the instance's `errors`
array is appended to by the method but never read by any code, so it is
not part of the model.  The key check compares the sorted schema key array
with the sorted object key array via `arraysEqual` (`.sort()` with no
comparator sorts strings by code units; any comparison sort produces the
same sorted array). -/
def Exterminator.validate (schema : Schema) (obj : JSObj) :
    Except String (Schema × VResult) :=
  let schemaKeys := (schema.map Prod.fst).insertionSort (fun a b => jsStrLeB a b = true)
  let objKeys := (obj.map Prod.fst).insertionSort (fun a b => jsStrLeB a b = true)
  if ¬ Exterminator.arraysEqual schemaKeys objKeys then
    .ok (schema, .failure "Validation failed"
      [("keys", ["Schema keys and validator keys are not the same"])])
  else
    match validateFields schema obj with
    | .error e => .error e
    | .ok (schema2, errors) =>
      if errors.isEmpty then .ok (schema2, .success)
      else .ok (schema2, .failure "Validation failed" errors)

/-! ### General lemmas about the validation protocol -/

/-- The resolved message a rule contributes when it fails on `(v, obj)`
(`none` when it passes; a thrown rule contributes no message because the
exception aborts the sweep). -/
def resolveFailure (v : JSValue) (obj : JSObj) (r : Rule) : Option String :=
  match r.validate v obj with
  | .pass => none
  | .fail => some (r.error v none)
  | .failMsg s => some (r.error v (some s))
  | .thrown _ => none

/-- When no rule throws, the sweep evaluates every rule and returns the
failing rules' resolved messages, in registration order. -/
theorem runRules_eq_filterMap (rs : List Rule) (v : JSValue) (obj : JSObj)
    (h : ∀ r ∈ rs, (r.validate v obj).throws = false) :
    runRules rs v obj = .ok (rs.filterMap (resolveFailure v obj)) := by
  induction rs with
  | nil => simp [runRules]
  | cons r rs ih =>
    have h1 : (r.validate v obj).throws = false := h r (by simp)
    have h2 : ∀ x ∈ rs, (x.validate v obj).throws = false :=
      fun x hx => h x (by simp [hx])
    cases hr : r.validate v obj with
    | pass => simp [runRules, hr, List.filterMap_cons, resolveFailure, ih h2]
    | fail => simp [runRules, hr, List.filterMap_cons, resolveFailure, ih h2, Except.map]
    | failMsg s => simp [runRules, hr, List.filterMap_cons, resolveFailure, ih h2, Except.map]
    | thrown e => rw [hr] at h1; simp [RuleOutcome.throws] at h1

/-! ### C1 -/

/-- C1 counterexample.  The claim says that for the schema
`{name: string()}` validating `{name: 0}` returns failure because of an
implicit "value must be a string" base-type check.  The code has no such
check: `string()` registers no rule at all, its rule sweep collects no
message for the number `0`, and the schema validation succeeds. -/
theorem schema_name_string_accepts_number_zero :
    (Exterminator.validate [("name", FieldV.str string)]
      [("name", JSValue.vNum 0)]).map (fun p => p.2) =
      Except.ok VResult.success := rfl

/-- C1 (amended): there is no implicit base-type check in a text field
validator.  A `StringValidator` fresh from `string()` — no registered
rules, no preprocessors — accepts every non-null value, the number `0`
included; in particular validating `{name: 0}` against `{name: string()}`
returns success. -/
theorem stringValidator_no_rules_accepts_any_nonnull (v : JSValue)
    (obj : JSObj) (h : v ≠ JSValue.vNull) :
    string.validate v obj = Except.ok (string, true) := by
  cases v with
  | vNull => exact absurd rfl h
  | vUndefined => rfl
  | vStr s =>
    simp [StringValidator.validate, string, runPreprocessors, runRules]
  | vNum n => rfl

/-- C1 witness: the amended statement evaluated at the number `0`. -/
theorem stringValidator_no_rules_accepts_number_zero :
    string.validate (JSValue.vNum 0) [] = Except.ok (string, true) :=
  stringValidator_no_rules_accepts_any_nonnull (JSValue.vNum 0) [] (by decide)

/-! ### C4 -/

/-- C4 counterexample.  The claim says field validators never throw during
`validate`, even on values of unexpected type, and that the schema
validator always returns the success value or the failure object.  But the
text `required` rule's callback is `value != null && value.trim() !== ""`,
and `(0).trim()` is a `TypeError`: validating `{name: 0}` against
`{name: string().required()}` throws out of both the field validator and
the schema validator (modelled by `Except.error`). -/
theorem required_on_number_throws :
    Exterminator.validate
      [("name", FieldV.str (string.required stringRequiredDefaultMsg))]
      [("name", JSValue.vNum 0)] =
      Except.error "TypeError: value.trim is not a function" := rfl

/-- C4 (amended): a field validator can throw during `validate` when a
rule applies a string method to a value of unexpected type (the
counterexample above); whenever no rule or preprocessor throws, the schema
validator's `validate` returns either the literal success value or the
structured failure object (whose message is `"Validation failed"`). -/
theorem validate_ok_is_success_or_failure (schema : Schema) (obj : JSObj)
    (s2 : Schema) (r : VResult)
    (h : Exterminator.validate schema obj = Except.ok (s2, r)) :
    r = VResult.success ∨
      ∃ es, r = VResult.failure "Validation failed" es := by
  unfold Exterminator.validate at h
  by_cases hk : Exterminator.arraysEqual
      ((schema.map Prod.fst).insertionSort (fun a b => jsStrLeB a b = true))
      ((obj.map Prod.fst).insertionSort (fun a b => jsStrLeB a b = true)) = true
  · simp only [hk, not_true, if_neg, if_false] at h
    cases hvf : validateFields schema obj with
    | error e => rw [hvf] at h; exact absurd h (by simp)
    | ok p =>
      rw [hvf] at h
      by_cases he : p.2.isEmpty = true
      · left
        simp only [he, if_pos, if_true] at h
        exact (Prod.mk.injEq _ _ _ _ ▸ (Except.ok.injEq _ _ ▸ h)).2.symm
      · right
        refine ⟨p.2, ?_⟩
        simp only [he, if_neg, if_false] at h
        exact (Prod.mk.injEq _ _ _ _ ▸ (Except.ok.injEq _ _ ▸ h)).2.symm
  · right
    refine ⟨[("keys", ["Schema keys and validator keys are not the same"])], ?_⟩
    simp only [hk, not_false_iff, if_pos, if_true] at h
    exact (Prod.mk.injEq _ _ _ _ ▸ (Except.ok.injEq _ _ ▸ h)).2.symm

/-- C4 witness: a non-throwing run, with the conclusion of the amended
statement. -/
theorem validate_ok_is_success_or_failure_witness :
    VResult.success = VResult.success ∨
      ∃ es, VResult.success = VResult.failure "Validation failed" es :=
  validate_ok_is_success_or_failure [("a", FieldV.str string)]
    [("a", JSValue.vStr "x")] [("a", FieldV.str string)] VResult.success rfl

/-! ### C5 -/

/-- C5 counterexample.  The claim says the numeric `required` rule fails on
the empty string.  The callback is `value !== null && value !== undefined`,
which the empty string passes: a number field with only `required()`
validates `""` successfully. -/
theorem number_required_passes_empty_string :
    ((number.required numberRequiredDefaultMsg).validate (JSValue.vStr "")
      []).map (fun p => p.2) = Except.ok true := rfl

/-- C5 (amended): the numeric `required` rule fails exactly when the value
is `null` or absent (`undefined`); it does not fail on the number `0`, and
it also does not fail on the empty string. -/
theorem number_required_fails_iff_null_or_undefined (v : JSValue)
    (m : JSMessage) (obj : JSObj) :
    (numberRequiredCheck v = RuleOutcome.fail ↔
      v = JSValue.vNull ∨ v = JSValue.vUndefined) ∧
    ((number.required m).validate (JSValue.vNum 0) obj).map (fun p => p.2) =
      Except.ok true ∧
    ((number.required m).validate (JSValue.vStr "") obj).map (fun p => p.2) =
      Except.ok true := by
  refine ⟨?_, rfl, rfl⟩
  cases v <;> simp [numberRequiredCheck]

/-! ### C2 -/

/-- Function `arraysEqual` is list equality (the length guard makes the indexwise
`every` a full comparison). -/
theorem arraysEqual_eq_true_iff (a b : List String) :
    Exterminator.arraysEqual a b = true ↔ a = b := by
  induction a generalizing b with
  | nil => cases b <;> simp [Exterminator.arraysEqual]
  | cons x xs ih =>
    cases b with
    | nil => simp [Exterminator.arraysEqual]
    | cons y ys =>
      have := ih ys
      simp only [Exterminator.arraysEqual, List.zip_cons_cons, List.all_cons,
        List.length_cons, Bool.and_eq_true, beq_iff_eq, Nat.add_right_cancel_iff,
        List.cons.injEq] at *
      constructor
      · rintro ⟨hlen, hxy, hall⟩
        exact ⟨hxy, this.mp ⟨hlen, hall⟩⟩
      · rintro ⟨hxy, hys⟩
        have h2 := this.mpr hys
        exact ⟨h2.1, hxy, h2.2⟩

/-- C2: whenever the key set of the object differs from the key set of the
schema — a key missing, a key extra, or both, irrespective of order — the
schema validator returns the failure object whose error mapping holds
exactly the single generic `"keys"` entry, and no field validator runs:
the schema is returned untouched (every field validator's state, its
`errors` scratch slot included, is exactly as it was). -/
theorem key_mismatch_short_circuits (schema : Schema) (obj : JSObj)
    (h : (schema.map Prod.fst).toFinset ≠ (obj.map Prod.fst).toFinset) :
    Exterminator.validate schema obj =
      Except.ok (schema, VResult.failure "Validation failed"
        [("keys", ["Schema keys and validator keys are not the same"])]) := by
  have hne : Exterminator.arraysEqual
      ((schema.map Prod.fst).insertionSort (fun a b => jsStrLeB a b = true))
      ((obj.map Prod.fst).insertionSort (fun a b => jsStrLeB a b = true)) = false := by
    cases hc : Exterminator.arraysEqual
        ((schema.map Prod.fst).insertionSort (fun a b => jsStrLeB a b = true))
        ((obj.map Prod.fst).insertionSort (fun a b => jsStrLeB a b = true)) with
    | false => rfl
    | true =>
      exfalso
      apply h
      have hsorted := (arraysEqual_eq_true_iff _ _).mp hc
      calc (schema.map Prod.fst).toFinset
          = ((schema.map Prod.fst).insertionSort
              (fun a b => jsStrLeB a b = true)).toFinset :=
            (List.toFinset_eq_of_perm _ _ (List.perm_insertionSort _ _)).symm
        _ = ((obj.map Prod.fst).insertionSort
              (fun a b => jsStrLeB a b = true)).toFinset := by rw [hsorted]
        _ = (obj.map Prod.fst).toFinset :=
            List.toFinset_eq_of_perm _ _ (List.perm_insertionSort _ _)
  unfold Exterminator.validate
  simp [hne]

/-- C2 witness: a schema with key `a` against an object with keys `a` and
`b`. -/
theorem key_mismatch_short_circuits_witness :
    Exterminator.validate [("a", FieldV.str string)]
      [("a", JSValue.vStr "x"), ("b", JSValue.vStr "y")] =
      Except.ok ([("a", FieldV.str string)], VResult.failure "Validation failed"
        [("keys", ["Schema keys and validator keys are not the same"])]) :=
  key_mismatch_short_circuits _ _ (by decide)

/-! ### The Preprocess → RuleSweep tail of the protocol -/

/-- The tail of `StringValidator.prototype.validate` once no setup,
optional or null short-circuit applies: preprocessors, then the rule
sweep. -/
def sweepS (sv : StringValidator) (value : JSValue) (obj : JSObj) :
    Except String (StringValidator × Bool) :=
  match runPreprocessors sv.preprocessors value with
  | .error e => .error e
  | .ok v2 =>
    match runRules sv.validators v2 obj with
    | .error e => .error e
    | .ok es => .ok ({ sv with errors := es }, es.isEmpty)

/-- The same tail for `NumberValidator.prototype.validate`. -/
def sweepN (nv : NumberValidator) (value : JSValue) (obj : JSObj) :
    Except String (NumberValidator × Bool) :=
  match runPreprocessors nv.preprocessors value with
  | .error e => .error e
  | .ok v2 =>
    match runRules nv.validators v2 obj with
    | .error e => .error e
    | .ok es => .ok ({ nv with errors := es }, es.isEmpty)

/-- With no setup error, no optional empty-string hit and a non-null
value, text validation is exactly the preprocess-and-sweep tail. -/
theorem string_validate_no_shortcircuit (sv : StringValidator) (v : JSValue)
    (obj : JSObj) (h1 : sv.invalidSetup = none)
    (h2 : ¬(sv.isOptional = true ∧ v = JSValue.vStr ""))
    (h3 : v ≠ JSValue.vNull) :
    sv.validate v obj = sweepS sv v obj := by
  unfold StringValidator.validate sweepS
  simp only [h1]
  rw [if_neg h2, if_neg h3]

/-- With no setup error, no optional empty-string hit and a non-null
value, numeric validation is exactly the preprocess-and-sweep tail. -/
theorem number_validate_no_shortcircuit (nv : NumberValidator) (v : JSValue)
    (obj : JSObj) (h1 : nv.invalidSetup = none)
    (h2 : ¬(nv.isOptional = true ∧ v = JSValue.vStr ""))
    (h3 : v ≠ JSValue.vNull) :
    nv.validate v obj = sweepN nv v obj := by
  unfold NumberValidator.validate sweepN
  simp only [h1]
  rw [if_neg h2, if_neg h3]

/-! ### C3 -/

/-- C3: in the rule sweep (no setup/optional/null short-circuit), every
registered rule is evaluated on the preprocessed value, in registration
order, with no short-circuit on failure: the errors recorded are exactly
the resolved messages of the failing rules (`List.filterMap` keeps order
and length of the failing sub-sequence), and the call returns success if
and only if that list is empty.  Stated for both field-validator
variants. -/
theorem rule_sweep_collects_all_failures :
    (∀ (sv : StringValidator) (v v2 : JSValue) (obj : JSObj),
      sv.invalidSetup = none →
      ¬(sv.isOptional = true ∧ v = JSValue.vStr "") →
      v ≠ JSValue.vNull →
      runPreprocessors sv.preprocessors v = Except.ok v2 →
      (∀ r ∈ sv.validators, (r.validate v2 obj).throws = false) →
      sv.validate v obj = Except.ok
        ({ sv with errors := sv.validators.filterMap (resolveFailure v2 obj) },
         (sv.validators.filterMap (resolveFailure v2 obj)).isEmpty)) ∧
    (∀ (nv : NumberValidator) (v v2 : JSValue) (obj : JSObj),
      nv.invalidSetup = none →
      ¬(nv.isOptional = true ∧ v = JSValue.vStr "") →
      v ≠ JSValue.vNull →
      runPreprocessors nv.preprocessors v = Except.ok v2 →
      (∀ r ∈ nv.validators, (r.validate v2 obj).throws = false) →
      nv.validate v obj = Except.ok
        ({ nv with errors := nv.validators.filterMap (resolveFailure v2 obj) },
         (nv.validators.filterMap (resolveFailure v2 obj)).isEmpty)) := by
  constructor
  · intro sv v v2 obj h1 h2 h3 h4 h5
    rw [string_validate_no_shortcircuit sv v obj h1 h2 h3]
    unfold sweepS
    rw [h4]
    dsimp only
    rw [runRules_eq_filterMap _ _ _ h5]
  · intro nv v v2 obj h1 h2 h3 h4 h5
    rw [number_validate_no_shortcircuit nv v obj h1 h2 h3]
    unfold sweepN
    rw [h4]
    dsimp only
    rw [runRules_eq_filterMap _ _ _ h5]

/-- C3 witness: a text field with two failing rules (`min 5` then
`alphaNumeric` on `"a b"`) reports both messages in declaration order, and
a number field with two failing rules (`min 5` then `max 3` on `4`) does
the same. -/
theorem rule_sweep_collects_all_failures_witness :
    ((string.min 5 (JSMessage.str "m1")).alphaNumeric (JSMessage.str "m2")).validate
      (JSValue.vStr "a b") [] = Except.ok
        ({ (string.min 5 (JSMessage.str "m1")).alphaNumeric (JSMessage.str "m2") with
            errors := ["m1", "m2"] }, false) ∧
    ((number.min 5 (JSMessage.str "n1")).max 3 (JSMessage.str "n2")).validate
      (JSValue.vNum 4) [] = Except.ok
        ({ (number.min 5 (JSMessage.str "n1")).max 3 (JSMessage.str "n2") with
            errors := ["n1", "n2"] }, false) :=
  ⟨rule_sweep_collects_all_failures.1 _ (JSValue.vStr "a b") (JSValue.vStr "a b") []
      rfl (by decide) (by decide) rfl (by decide),
   rule_sweep_collects_all_failures.2 _ (JSValue.vNum 4) (JSValue.vNum 4) []
      rfl (by decide) (by decide) rfl (by decide)⟩

/-! ### C6 -/

/-- C6: (i) configuring `email` with a domain present in both the allow and
the deny list stores the domain-conflict message in `invalidSetup`
(registering no rule); (ii) any field validator whose `invalidSetup` is
set fails every subsequent `validate` call — whatever the value supplied,
and whatever rules, preprocessors or flags the instance carries — with the
stored setup message as the one and only entry of its error list. -/
theorem email_domain_conflict_reports_only_setup_error :
    (∀ (sv : StringValidator) (m : JSMessage) (ds xs : List String),
      ds.filter (fun d => xs.contains d) ≠ [] →
      (sv.email m ds xs).invalidSetup = some (emailConflictMsg ds xs)) ∧
    (∀ (sv : StringValidator) (msg : String) (v : JSValue) (obj : JSObj),
      sv.invalidSetup = some msg →
      sv.validate v obj = Except.ok ({ sv with errors := [msg] }, false)) := by
  constructor
  · intro sv m ds xs h
    unfold StringValidator.email
    rw [if_pos h]
  · intro sv msg v obj h
    unfold StringValidator.validate
    simp only [h]

/-- C6 witness: the spec's scenario
`string().email({domains:["a.com"], excludeDomains:["a.com"]})` — even a
well-formed address of the conflicted domain fails with exactly the
conflict message. -/
theorem email_domain_conflict_witness :
    (string.email (JSMessage.str "Value must be a valid email")
        ["a.com"] ["a.com"]).invalidSetup =
      some "Domains a.com cannot be both allowed and excluded." ∧
    (string.email (JSMessage.str "Value must be a valid email")
        ["a.com"] ["a.com"]).validate (JSValue.vStr "good@a.com") [] =
      Except.ok ({ string.email (JSMessage.str "Value must be a valid email")
          ["a.com"] ["a.com"] with
          errors := ["Domains a.com cannot be both allowed and excluded."] },
        false) :=
  ⟨email_domain_conflict_reports_only_setup_error.1 string
      (JSMessage.str "Value must be a valid email") ["a.com"] ["a.com"] (by decide),
   email_domain_conflict_reports_only_setup_error.2 _
      "Domains a.com cannot be both allowed and excluded."
      (JSValue.vStr "good@a.com") [] (by rfl)⟩

/-! ### C9 -/

/-- C9: the null short-circuit is a strict-equality test against `null`,
so an `undefined` value in a non-nullable field never produces the
`"Value cannot be null"` error: whatever the `isOptional`/`isNullable`
flags, validation of `undefined` proceeds straight to the preprocessors
and the rule sweep (first and third conjuncts), and a field validator with
no registered rules and no preprocessors returns success on `undefined`
(second and fourth conjuncts).  Stated for both variants. -/
theorem undefined_passes_null_check :
    (∀ (sv : StringValidator) (obj : JSObj), sv.invalidSetup = none →
      sv.validate JSValue.vUndefined obj = sweepS sv JSValue.vUndefined obj) ∧
    (∀ (sv : StringValidator) (obj : JSObj), sv.invalidSetup = none →
      sv.validators = [] → sv.preprocessors = [] →
      sv.validate JSValue.vUndefined obj =
        Except.ok ({ sv with errors := [] }, true)) ∧
    (∀ (nv : NumberValidator) (obj : JSObj), nv.invalidSetup = none →
      nv.validate JSValue.vUndefined obj = sweepN nv JSValue.vUndefined obj) ∧
    (∀ (nv : NumberValidator) (obj : JSObj), nv.invalidSetup = none →
      nv.validators = [] → nv.preprocessors = [] →
      nv.validate JSValue.vUndefined obj =
        Except.ok ({ nv with errors := [] }, true)) := by
  refine ⟨?_, ?_, ?_, ?_⟩
  · intro sv obj h1
    exact string_validate_no_shortcircuit sv _ obj h1
      (by rintro ⟨-, h⟩; cases h) (by rintro h; cases h)
  · intro sv obj h1 hv hp
    rw [string_validate_no_shortcircuit sv _ obj h1
      (by rintro ⟨-, h⟩; cases h) (by rintro h; cases h)]
    unfold sweepS
    rw [hv, hp]
    rfl
  · intro nv obj h1
    exact number_validate_no_shortcircuit nv _ obj h1
      (by rintro ⟨-, h⟩; cases h) (by rintro h; cases h)
  · intro nv obj h1 hv hp
    rw [number_validate_no_shortcircuit nv _ obj h1
      (by rintro ⟨-, h⟩; cases h) (by rintro h; cases h)]
    unfold sweepN
    rw [hv, hp]
    rfl

/-- C9 witness: `string()` and `number()` (non-nullable, no rules) both
succeed on an `undefined` value — no `"Value cannot be null"` error. -/
theorem undefined_passes_null_check_witness :
    string.validate JSValue.vUndefined [] = Except.ok (string, true) ∧
    number.validate JSValue.vUndefined [] = Except.ok (number, true) :=
  ⟨undefined_passes_null_check.2.1 string [] rfl rfl rfl,
   undefined_passes_null_check.2.2.2 number [] rfl rfl rfl⟩

/-! ### C10 -/

/-- C10: the optional empty-string short-circuit is tested before the
preprocessors run, so an optional field with a `trim` preprocessor does
not short-circuit on a whitespace-only (hence non-empty) value: the value
is trimmed to the empty string afterwards and the empty string is then run
through every registered rule. -/
theorem optional_whitespace_value_runs_rules (sv : StringValidator)
    (obj : JSObj) (s : String) (h1 : sv.invalidSetup = none)
    (h2 : sv.isOptional = true) (h3 : sv.preprocessors = [jsTrimPre])
    (h4 : s ≠ "") (h5 : jsStrTrim s = "") :
    sv.validate (JSValue.vStr s) obj =
      (runRules sv.validators (JSValue.vStr "") obj).map
        (fun es => ({ sv with errors := es }, es.isEmpty)) := by
  rw [string_validate_no_shortcircuit sv _ obj h1
    (by rintro ⟨-, h⟩; exact h4 (by cases h; rfl)) (by rintro h; cases h)]
  unfold sweepS
  rw [h3]
  have hpre : runPreprocessors [jsTrimPre] (JSValue.vStr s) =
      Except.ok (JSValue.vStr "") := by
    simp [runPreprocessors, jsTrimPre, h5]
  rw [hpre]
  dsimp only
  cases hr : runRules sv.validators (JSValue.vStr "") obj <;>
    simp [Except.map, hr]

/-- C10 witness: `string().required().trim().optional()` on the one-space
string: not short-circuited, trimmed to `""`, and the `required` rule then
fails. -/
theorem optional_whitespace_value_runs_rules_witness :
    ((string.required stringRequiredDefaultMsg).trim.optional).validate
      (JSValue.vStr " ") [] = Except.ok
        ({ (string.required stringRequiredDefaultMsg).trim.optional with
            errors := ["Value is required"] }, false) :=
  optional_whitespace_value_runs_rules _ [] " " rfl rfl rfl (by decide) rfl

/-! ### C8 -/

/-- C8: cross-field rules compare against the referenced field's value as
read from the very object passed to `validate` — `getProp obj f`, the raw
input — while the left-hand side is the current field's preprocessed
value.  Stated for the text `equals` rule and for the numeric `greater`
rule (the `less`/`greaterEqual`/`lessEqual` rules differ only in the
comparison operator applied to the same two operands). -/
theorem cross_field_rules_read_original_object :
    (∀ (sv : StringValidator) (f : String) (m : JSMessage) (v v2 : JSValue)
        (obj : JSObj),
      sv.invalidSetup = none →
      sv.validators = (string.equals f m).validators →
      ¬(sv.isOptional = true ∧ v = JSValue.vStr "") →
      v ≠ JSValue.vNull →
      runPreprocessors sv.preprocessors v = Except.ok v2 →
      (v2 = getProp obj f →
        sv.validate v obj = Except.ok ({ sv with errors := [] }, true)) ∧
      (v2 ≠ getProp obj f →
        sv.validate v obj =
          Except.ok ({ sv with errors := [resolveError m v2] }, false))) ∧
    (∀ (nv : NumberValidator) (f : String) (m : JSMessage) (v v2 : JSValue)
        (obj : JSObj),
      nv.invalidSetup = none →
      nv.validators = (number.greater f m).validators →
      ¬(nv.isOptional = true ∧ v = JSValue.vStr "") →
      v ≠ JSValue.vNull →
      runPreprocessors nv.preprocessors v = Except.ok v2 →
      (jsGt v2 (getProp obj f) = true →
        nv.validate v obj = Except.ok ({ nv with errors := [] }, true)) ∧
      (jsGt v2 (getProp obj f) = false →
        nv.validate v obj =
          Except.ok ({ nv with errors := [resolveError m v2] }, false))) := by
  constructor
  · intro sv f m v v2 obj h1 hv h2 h3 h4
    have base := string_validate_no_shortcircuit sv v obj h1 h2 h3
    unfold sweepS at base
    rw [h4] at base
    dsimp only at base
    constructor
    · intro heq
      rw [base, hv]
      simp [runRules, string, StringValidator.equals, heq]
    · intro hne
      rw [base, hv]
      simp [runRules, string, StringValidator.equals, hne, mkError, Except.map]
  · intro nv f m v v2 obj h1 hv h2 h3 h4
    have base := number_validate_no_shortcircuit nv v obj h1 h2 h3
    unfold sweepN at base
    rw [h4] at base
    dsimp only at base
    constructor
    · intro heq
      rw [base, hv]
      simp [runRules, number, NumberValidator.greater, heq]
    · intro hne
      rw [base, hv]
      simp [runRules, number, NumberValidator.greater, hne, mkError, Except.map]

/-- C8 witness.  Text side: `string().equals("b").trim()` validating
`"  x"` in `{a: "  x", b: "  x"}` — the current field is trimmed to `"x"`
but the rule compares against the untransformed `obj.b`, i.e. `"  x"`, so
it fails (had the rule seen a preprocessed object, it would have passed).
Number side: the source's own demo, `balance: number().greater("dew")`
with `{balance: 100, dew: 500}`, fails because `100 > 500` is false on the
raw object values. -/
theorem cross_field_rules_read_original_object_witness :
    ((string.equals "b" (JSMessage.str "must equal b")).trim).validate
      (JSValue.vStr "  x") [("a", JSValue.vStr "  x"), ("b", JSValue.vStr "  x")] =
      Except.ok ({ (string.equals "b" (JSMessage.str "must equal b")).trim with
          errors := ["must equal b"] }, false) ∧
    (number.greater "dew" (JSMessage.str "gmsg")).validate (JSValue.vNum 100)
      [("balance", JSValue.vNum 100), ("dew", JSValue.vNum 500)] =
      Except.ok ({ number.greater "dew" (JSMessage.str "gmsg") with
          errors := ["gmsg"] }, false) :=
  ⟨(cross_field_rules_read_original_object.1
      ((string.equals "b" (JSMessage.str "must equal b")).trim) "b"
      (JSMessage.str "must equal b") (JSValue.vStr "  x") (JSValue.vStr "x")
      [("a", JSValue.vStr "  x"), ("b", JSValue.vStr "  x")]
      rfl rfl (by decide) (by decide) rfl).2 (by decide),
   (cross_field_rules_read_original_object.2
      (number.greater "dew" (JSMessage.str "gmsg")) "dew" (JSMessage.str "gmsg")
      (JSValue.vNum 100) (JSValue.vNum 100)
      [("balance", JSValue.vNum 100), ("dew", JSValue.vNum 500)]
      rfl rfl (by decide) (by decide) rfl).2 (by decide)⟩

/-! ### C7: the reset of the errors scratch slot -/

/-- The stale content of the `errors` scratch slot is irrelevant to
`validate`: the method's first statement overwrites it. -/
theorem string_validate_errors_irrel (sv : StringValidator) (e : List String)
    (v : JSValue) (obj : JSObj) :
    StringValidator.validate { sv with errors := e } v obj = sv.validate v obj := rfl

theorem number_validate_errors_irrel (nv : NumberValidator) (e : List String)
    (v : JSValue) (obj : JSObj) :
    NumberValidator.validate { nv with errors := e } v obj = nv.validate v obj := rfl

/-- Method `validate` changes nothing of a text validator's state but the
`errors` slot. -/
theorem string_validate_clear_result (sv : StringValidator) (v : JSValue)
    (obj : JSObj) (sv2 : StringValidator) (b : Bool)
    (h : sv.validate v obj = Except.ok (sv2, b)) :
    ({ sv2 with errors := [] } : StringValidator) = { sv with errors := [] } := by
  cases hset : sv.invalidSetup with
  | some msg =>
    simp only [StringValidator.validate, hset] at h
    simp only [Except.ok.injEq, Prod.mk.injEq] at h
    rw [← h.1]
  | none =>
    by_cases hopt : sv.isOptional = true ∧ v = JSValue.vStr ""
    · simp only [StringValidator.validate, hset, if_pos hopt] at h
      simp only [Except.ok.injEq, Prod.mk.injEq] at h
      rw [← h.1]
    · by_cases hnull : v = JSValue.vNull
      · by_cases hnn : sv.isNullable = true
        · simp only [StringValidator.validate, hset, if_neg hopt, if_pos hnull,
            if_pos hnn] at h
          simp only [Except.ok.injEq, Prod.mk.injEq] at h
          rw [← h.1]
        · simp only [StringValidator.validate, hset, if_neg hopt, if_pos hnull,
            if_neg hnn] at h
          simp only [Except.ok.injEq, Prod.mk.injEq] at h
          rw [← h.1]
      · simp only [StringValidator.validate, hset, if_neg hopt, if_neg hnull] at h
        cases hp : runPreprocessors sv.preprocessors v with
        | error e => rw [hp] at h; simp at h
        | ok v2 =>
          rw [hp] at h
          dsimp only at h
          cases hr : runRules sv.validators v2 obj with
          | error e => rw [hr] at h; simp at h
          | ok es =>
            rw [hr] at h
            simp only [Except.ok.injEq, Prod.mk.injEq] at h
            rw [← h.1]

/-- Method `validate` changes nothing of a number validator's state but the
`errors` slot. -/
theorem number_validate_clear_result (nv : NumberValidator) (v : JSValue)
    (obj : JSObj) (nv2 : NumberValidator) (b : Bool)
    (h : nv.validate v obj = Except.ok (nv2, b)) :
    ({ nv2 with errors := [] } : NumberValidator) = { nv with errors := [] } := by
  cases hset : nv.invalidSetup with
  | some msg =>
    simp only [NumberValidator.validate, hset] at h
    simp only [Except.ok.injEq, Prod.mk.injEq] at h
    rw [← h.1]
  | none =>
    by_cases hopt : nv.isOptional = true ∧ v = JSValue.vStr ""
    · simp only [NumberValidator.validate, hset, if_pos hopt] at h
      simp only [Except.ok.injEq, Prod.mk.injEq] at h
      rw [← h.1]
    · by_cases hnull : v = JSValue.vNull
      · by_cases hnn : nv.isNullable = true
        · simp only [NumberValidator.validate, hset, if_neg hopt, if_pos hnull,
            if_pos hnn] at h
          simp only [Except.ok.injEq, Prod.mk.injEq] at h
          rw [← h.1]
        · simp only [NumberValidator.validate, hset, if_neg hopt, if_pos hnull,
            if_neg hnn] at h
          simp only [Except.ok.injEq, Prod.mk.injEq] at h
          rw [← h.1]
      · simp only [NumberValidator.validate, hset, if_neg hopt, if_neg hnull] at h
        cases hp : runPreprocessors nv.preprocessors v with
        | error e => rw [hp] at h; simp at h
        | ok v2 =>
          rw [hp] at h
          dsimp only at h
          cases hr : runRules nv.validators v2 obj with
          | error e => rw [hr] at h; simp at h
          | ok es =>
            rw [hr] at h
            simp only [Except.ok.injEq, Prod.mk.injEq] at h
            rw [← h.1]

/-- A field validator with its scratch slot blanked. -/
def clearFieldErrors : FieldV → FieldV
  | .str sv => .str { sv with errors := [] }
  | .num nv => .num { nv with errors := [] }

/-- Two field validators that agree up to the stale scratch slot validate
identically. -/
theorem fieldV_validate_congr (f1 f2 : FieldV) (v : JSValue) (obj : JSObj)
    (h : clearFieldErrors f1 = clearFieldErrors f2) :
    f1.validate v obj = f2.validate v obj := by
  cases f1 with
  | str sv1 =>
    cases f2 with
    | str sv2 =>
      simp only [clearFieldErrors, FieldV.str.injEq] at h
      show (sv1.validate v obj).map _ = (sv2.validate v obj).map _
      rw [← string_validate_errors_irrel sv1 ([] : List String) v obj, h,
        string_validate_errors_irrel]
    | num nv2 => simp [clearFieldErrors] at h
  | num nv1 =>
    cases f2 with
    | str sv2 => simp [clearFieldErrors] at h
    | num nv2 =>
      simp only [clearFieldErrors, FieldV.num.injEq] at h
      show (nv1.validate v obj).map _ = (nv2.validate v obj).map _
      rw [← number_validate_errors_irrel nv1 ([] : List String) v obj, h,
        number_validate_errors_irrel]

/-- Field validation changes nothing of the validator's state but the
scratch slot. -/
theorem fieldV_validate_clear_result (f : FieldV) (v : JSValue) (obj : JSObj)
    (f2 : FieldV) (b : Bool) (h : f.validate v obj = Except.ok (f2, b)) :
    clearFieldErrors f2 = clearFieldErrors f := by
  cases f with
  | str sv =>
    simp only [FieldV.validate] at h
    cases hs : sv.validate v obj with
    | error e => rw [hs] at h; simp [Except.map] at h
    | ok p =>
      rw [hs] at h
      simp only [Except.map, Except.ok.injEq, Prod.mk.injEq] at h
      rw [← h.1]
      simp only [clearFieldErrors, FieldV.str.injEq]
      exact string_validate_clear_result sv v obj p.1 p.2 (by rw [hs])
  | num nv =>
    simp only [FieldV.validate] at h
    cases hs : nv.validate v obj with
    | error e => rw [hs] at h; simp [Except.map] at h
    | ok p =>
      rw [hs] at h
      simp only [Except.map, Except.ok.injEq, Prod.mk.injEq] at h
      rw [← h.1]
      simp only [clearFieldErrors, FieldV.num.injEq]
      exact number_validate_clear_result nv v obj p.1 p.2 (by rw [hs])

/-- A schema with every field validator's scratch slot blanked. -/
def clearSchemaErrors (s : Schema) : Schema :=
  s.map (fun p => (p.1, clearFieldErrors p.2))

theorem clearSchemaErrors_map_fst (s : Schema) :
    (clearSchemaErrors s).map Prod.fst = s.map Prod.fst := by
  simp [clearSchemaErrors]

/-- The per-field loop is fully determined by the schema up to stale
scratch slots: its outputs (updated validators and error map alike) are
identical. -/
theorem validateFields_congr (s1 s2 : Schema) (obj : JSObj)
    (h : clearSchemaErrors s1 = clearSchemaErrors s2) :
    validateFields s1 obj = validateFields s2 obj := by
  induction s1 generalizing s2 with
  | nil =>
    cases s2 with
    | nil => rfl
    | cons q qs => simp [clearSchemaErrors] at h
  | cons p ps ih =>
    cases s2 with
    | nil => simp [clearSchemaErrors] at h
    | cons q qs =>
      simp only [clearSchemaErrors, List.map_cons, List.cons.injEq,
        Prod.mk.injEq] at h
      obtain ⟨⟨hk, hf⟩, ht⟩ := h
      obtain ⟨k1, f1⟩ := p
      obtain ⟨k2, f2⟩ := q
      simp only at hk hf
      subst hk
      simp only [validateFields]
      rw [fieldV_validate_congr f1 f2 (getProp obj k1) obj hf,
        ih qs (by simpa [clearSchemaErrors] using ht)]

/-- The per-field loop changes nothing of the schema's validators but
their scratch slots. -/
theorem validateFields_clear_result (s : Schema) (obj : JSObj) (s2 : Schema)
    (errs : List (String × List String))
    (h : validateFields s obj = Except.ok (s2, errs)) :
    clearSchemaErrors s2 = clearSchemaErrors s := by
  induction s generalizing s2 errs with
  | nil =>
    simp only [validateFields, Except.ok.injEq, Prod.mk.injEq] at h
    rw [← h.1]
  | cons p ps ih =>
    obtain ⟨k, f⟩ := p
    simp only [validateFields] at h
    cases hf : FieldV.validate f (getProp obj k) obj with
    | error e => rw [hf] at h; simp at h
    | ok q =>
      rw [hf] at h
      cases hrest : validateFields ps obj with
      | error e => rw [hrest] at h; simp at h
      | ok r =>
        rw [hrest] at h
        simp only [Except.ok.injEq, Prod.mk.injEq] at h
        rw [← h.1]
        simp only [clearSchemaErrors, List.map_cons, List.cons.injEq, Prod.mk.injEq]
        refine ⟨⟨trivial, ?_⟩, ?_⟩
        · exact fieldV_validate_clear_result f (getProp obj k) obj q.1 q.2 (by rw [hf])
        · have := ih r.1 r.2 (by rw [hrest])
          simpa [clearSchemaErrors] using this

/-- Schemas that agree up to stale scratch slots produce the same
validation result. -/
theorem exterminator_validate_congr (s1 s2 : Schema) (obj : JSObj)
    (h : clearSchemaErrors s1 = clearSchemaErrors s2) :
    (Exterminator.validate s1 obj).map (fun p => p.2) =
      (Exterminator.validate s2 obj).map (fun p => p.2) := by
  have hkeys : s1.map Prod.fst = s2.map Prod.fst := by
    rw [← clearSchemaErrors_map_fst s1, h, clearSchemaErrors_map_fst]
  unfold Exterminator.validate
  rw [hkeys]
  by_cases hk : Exterminator.arraysEqual
      ((s2.map Prod.fst).insertionSort (fun a b => jsStrLeB a b = true))
      ((obj.map Prod.fst).insertionSort (fun a b => jsStrLeB a b = true)) = true
  · rw [if_neg (by simp [hk]), if_neg (by simp [hk]),
      validateFields_congr s1 s2 obj h]
  · rw [if_pos (by simp [hk]), if_pos (by simp [hk])]
    rfl

/-! ### C7 -/

/-- C7: schema validation is deterministic and leaks no state between
calls.  If one run returns a result (rather than throwing), then — because
every field validator's `errors` scratch slot is reset at the start of
each `validate` call, and nothing else of the state ever changes — running
the mutated schema on any second object gives exactly the result a fresh
schema would give; in particular re-running the same object reproduces the
first result. -/
theorem validate_results_deterministic_no_leak (schema : Schema)
    (obj1 : JSObj) (s1 : Schema) (r1 : VResult)
    (h : Exterminator.validate schema obj1 = Except.ok (s1, r1)) (obj2 : JSObj) :
    (Exterminator.validate s1 obj2).map (fun p => p.2) =
      (Exterminator.validate schema obj2).map (fun p => p.2) ∧
    (Exterminator.validate s1 obj1).map (fun p => p.2) = Except.ok r1 := by
  have hclear : clearSchemaErrors s1 = clearSchemaErrors schema := by
    unfold Exterminator.validate at h
    by_cases hk : Exterminator.arraysEqual
        ((schema.map Prod.fst).insertionSort (fun a b => jsStrLeB a b = true))
        ((obj1.map Prod.fst).insertionSort (fun a b => jsStrLeB a b = true)) = true
    · rw [if_neg (by simp [hk])] at h
      cases hvf : validateFields schema obj1 with
      | error e => rw [hvf] at h; simp at h
      | ok p =>
        obtain ⟨s2', errs⟩ := p
        rw [hvf] at h
        dsimp only at h
        have hs1 : s1 = s2' := by
          by_cases he : errs.isEmpty = true
          · rw [if_pos he] at h
            simp only [Except.ok.injEq, Prod.mk.injEq] at h
            exact h.1.symm
          · rw [if_neg he] at h
            simp only [Except.ok.injEq, Prod.mk.injEq] at h
            exact h.1.symm
        rw [hs1]
        exact validateFields_clear_result schema obj1 s2' errs (by rw [hvf])
    · rw [if_pos (by simp [hk])] at h
      simp only [Except.ok.injEq, Prod.mk.injEq] at h
      rw [← h.1]
  refine ⟨exterminator_validate_congr s1 schema obj2 hclear, ?_⟩
  rw [exterminator_validate_congr s1 schema obj1 hclear, h]
  rfl

/-- C7 witness: a first run that records an error (`required` fails on
`""`) mutates the stored field validator's scratch slot; validating a
second object with the mutated schema still gives exactly what a fresh
schema gives. -/
theorem validate_results_deterministic_no_leak_witness :
    (Exterminator.validate
        [("a", FieldV.str { string.required stringRequiredDefaultMsg with
            errors := ["Value is required"] })]
        [("a", JSValue.vStr "ok")]).map (fun p => p.2) =
      (Exterminator.validate
        [("a", FieldV.str (string.required stringRequiredDefaultMsg))]
        [("a", JSValue.vStr "ok")]).map (fun p => p.2) :=
  (validate_results_deterministic_no_leak
    [("a", FieldV.str (string.required stringRequiredDefaultMsg))]
    [("a", JSValue.vStr "")] _ _ rfl [("a", JSValue.vStr "ok")]).1
